import Mathlib

/-
Verification of the Smart RSU relay server (Prototyping/relay_server.py).

The hub receives UDP datagrams, parses them as JSON, enriches emergency
reports with synthetic TPMS telemetry, stores the latest state, and fans
messages out to the responder (Car2), hospital, dashboard and reporter
(Car1) sinks.  This file embeds the hub's data model and handlers as Lean
definitions and proves/refutes the frozen claims about them.

Modelling conventions:
- Python floats are modelled as real numbers; `round(x, n)` is modelled as
  rounding `x * 10^n` to the nearest integer (Mathlib `round`).
- A parsed JSON value is `JValue`; Python dicts produced by `json.loads`
  have unique keys, so objects are association lists looked up by first key.
- The two library calls `data.decode()` (UTF-8) and `json.loads` are
  modelled by classifying each inbound datagram (`RawDatagram`) by their
  outcome: undecodable bytes, decodable but unparsable text, or a parsed
  JSON value.
- An uncaught Python exception is modelled by `Except.error` carrying the
  exception class that propagates out of the handler.
-/

noncomputable section

namespace Relay

/-- Parsed JSON value, as produced by json.loads.  Numbers are modelled as
real numbers; objects are key/value lists with unique keys (the shape
json.loads actually returns), looked up by first matching key. -/
inductive JValue where
  | null
  | bool (b : Bool)
  | num (x : ℝ)
  | str (s : String)
  | arr (elems : List JValue)
  | obj (fields : List (String × JValue))

/-- Dictionary lookup, dict[k] / dict.get(k): first entry with the key. -/
def getField : List (String × JValue) → String → Option JValue
  | [], _ => none
  | kv :: t, k => if kv.1 = k then some kv.2 else getField t k

/-- Python membership test k in dict. -/
def hasKey : List (String × JValue) → String → Bool
  | [], _ => false
  | kv :: t, k => if kv.1 = k then true else hasKey t k

/-- Python dict.get(k) with default None. -/
def getJ (fields : List (String × JValue)) (k : String) : JValue :=
  (getField fields k).getD JValue.null

/-- Python dict.get(k, default). -/
def getD (fields : List (String × JValue)) (k : String) (dv : JValue) : JValue :=
  (getField fields k).getD dv

/-- Python dict assignment dict[k] = v: overwrite the entry in place when
the key exists (preserving insertion order), else append it. -/
def setField (fields : List (String × JValue)) (k : String) (v : JValue) :
    List (String × JValue) :=
  if hasKey fields k then
    fields.map (fun kv => if kv.1 = k then (k, v) else kv)
  else
    fields ++ [(k, v)]

/-- Python equality test between a JSON value and a string literal
(v == "s"): true exactly when v is that string; comparisons of a string
against numbers, booleans, None, lists and dicts are all False. -/
def jStrEq (v : JValue) (s : String) : Bool :=
  match v with
  | .str t => t == s
  | _ => false

/-- Conversion of a JSON value to the real number Python's math functions
accept: int/float are numbers and bool is an int subclass (True == 1);
anything else raises TypeError, modelled as none. -/
def toNumber : JValue → Option ℝ
  | .num x => some x
  | .bool b => some (if b then 1 else 0)
  | _ => none

/-! GeoMath: haversine_distance and calculate_eta (relay_server.py 84-102). -/

/-- Python math.radians: degrees to radians. -/
def radians (x : ℝ) : ℝ := x * (Real.pi / 180)

/-- Python round(x, 1): round to one decimal place (tie behaviour at exact
halves idealised as round-half-up on reals). -/
def round1 (x : ℝ) : ℝ := ((round (x * 10) : ℤ) : ℝ) / 10

/-- Python round(x, 2): round to two decimal places. -/
def round2 (x : ℝ) : ℝ := ((round (x * 100) : ℤ) : ℝ) / 100

/-- Distance in km between two GPS coordinates (relay_server.py 84-93),
Earth radius R = 6371 km. -/
def haversine_distance (lat1 lon1 lat2 lon2 : ℝ) : ℝ :=
  let dlat := radians (lat2 - lat1)
  let dlon := radians (lon2 - lon1)
  let a := Real.sin (dlat / 2) ^ 2 +
    Real.cos (radians lat1) * Real.cos (radians lat2) * Real.sin (dlon / 2) ^ 2
  let c := 2 * Real.arcsin (Real.sqrt a)
  6371 * c

/-- ETA in minutes assuming average speed (relay_server.py 96-102).  The
Python parameter speed_kmh defaults to 40; callers here pass it explicitly. -/
def calculate_eta (lat1 lon1 lat2 lon2 speed_kmh : ℝ) : ℝ :=
  let dist := haversine_distance lat1 lon1 lat2 lon2
  if speed_kmh ≤ 0 then 999
  else round1 (dist / speed_kmh * 60)

/-! TPMSGenerator (relay_server.py 46-77). -/

/-- Wheel positions. -/
inductive Wheel where
  | FL | FR | RL | RR
deriving DecidableEq

/-- One wheel's synthetic telemetry entry (relay_server.py 72-76).  The code
stores the status as one of the strings LOW, HIGH, OK. -/
structure WheelData where
  pressure_psi : ℝ
  temperature_c : ℝ
  status : String

/-- TPMSGenerator.base_pressure (relay_server.py 50). -/
def basePressure : Wheel → ℝ
  | .FL => 33
  | .FR => 33.5
  | .RL => 32
  | .RR => 32.5

/-- TPMSGenerator.base_temp (relay_server.py 51). -/
def baseTemp : Wheel → ℝ
  | .FL => 35
  | .FR => 36
  | .RL => 34
  | .RR => 35.5

/-- One wheel of TPMSGenerator.generate (relay_server.py 54-77), the call
made after the tick counter has been incremented.  Python's per-process
string hash is the oracle hashW, and the two random.uniform jitters are the
oracles jP and jT (the claims hold for all jitter values, in particular the
bounded ones the code draws). -/
def genWheel (tick : ℕ) (hashW : Wheel → ℤ) (jP jT : Wheel → ℝ)
    (w : Wheel) : WheelData :=
  let drift := Real.sin ((tick : ℝ) * 0.05 + ((hashW w % 10 : ℤ) : ℝ)) * 1.5
  let pressure0 := round1 (basePressure w + drift + jP w)
  let temp_drift := Real.sin ((tick : ℝ) * 0.03 + ((hashW w % 7 : ℤ) : ℝ)) * 5
  let temp0 := round1 (baseTemp w + temp_drift + jT w)
  let pressure := max 25 (min 42 pressure0)
  let temp := max 20 (min 90 temp0)
  { pressure_psi := pressure
    temperature_c := temp
    status := if pressure < 28 then "LOW" else if pressure > 38 then "HIGH" else "OK" }

/-- JSON rendering of one wheel entry, as placed into packet tpms_data. -/
def wheelJson (w : WheelData) : JValue :=
  .obj [("pressure_psi", .num w.pressure_psi),
        ("temperature_c", .num w.temperature_c),
        ("status", .str w.status)]

/-- JSON rendering of the four-wheel tpms dict (relay_server.py 56-77). -/
def tpmsToJson (t : Wheel → WheelData) : JValue :=
  .obj [("FL", wheelJson (t .FL)), ("FR", wheelJson (t .FR)),
        ("RL", wheelJson (t .RL)), ("RR", wheelJson (t .RR))]

/-! Hub state, messages and transport model. -/

/-- The latest_data["emergency"] dict (relay_server.py 158-167).  Every key
is always present; a field the inbound packet lacked holds null (Python
None, the dict.get default). -/
structure Emergency where
  vehicle_id : JValue
  issue : JValue
  raw_description : JValue
  latitude : JValue
  longitude : JValue
  timestamp : JValue
  hop_trace : JValue
  environment_status : JValue

/-- The latest_data global dict (relay_server.py 36-42): every field starts
as None and is overwritten whole by the handlers. -/
structure LatestData where
  sensor_data : Option JValue
  tpms_data : Option (Wheel → WheelData)
  emergency : Option Emergency
  car2_ack : Option JValue
  car2_eta : Option ℝ

/-- Process state shared by the listeners: the latest_data dict plus the
TPMSGenerator tick counter. -/
structure HubState where
  tick : ℕ
  latest : LatestData

/-- State at process start: latest_data all None, generator tick 0. -/
def initState : HubState :=
  { tick := 0
    latest := { sensor_data := none, tpms_data := none, emergency := none,
                car2_ack := none, car2_eta := none } }

/-- Outbound UDP destinations of the hub (relay_server.py 21-30). -/
inductive Dest where
  | car2      -- responder console, CAR2_IP:5006
  | hospital  -- hospital listener, HOSPITAL_IP:5007
  | dashboard -- dashboard, DASHBOARD_IP:5008
  | car1      -- reporter console, CAR1_IP:5009
deriving DecidableEq

/-- IP and port of each sink, from the CONFIG block (relay_server.py 21-30). -/
def destAddr : Dest → String × ℕ
  | .car2 => ("127.0.0.1", 5006)
  | .hospital => ("127.0.0.1", 5007)
  | .dashboard => ("192.168.137.161", 5008)
  | .car1 => ("192.168.137.161", 5009)

/-- Hospital EMERGENCY_ALERT message (relay_server.py 174-185).  The two
maps fields hold the latitude and longitude values interpolated into the
Google-maps link text. -/
structure HospitalMsg where
  vehicle_id : JValue
  issue : JValue
  raw_description : JValue
  latitude : JValue
  longitude : JValue
  timestamp : JValue
  environment_status : JValue
  maps_link_lat : JValue
  maps_link_lon : JValue
  relay_timestamp : JValue

/-- Dashboard EMERGENCY message (relay_server.py 190-197). -/
structure DashboardEmergencyMsg where
  data : JValue
  sensor_data : JValue
  tpms_data : Wheel → WheelData
  environment_status : JValue
  timestamp : String

/-- Dashboard CAR2_ACK message (relay_server.py 244-252). -/
structure DashboardAckMsg where
  car2_id : JValue
  car2_latitude : JValue
  car2_longitude : JValue
  eta_minutes : ℝ
  distance_km : ℝ
  ack_timestamp : String

/-- Car1 HELP_COMING message (relay_server.py 257-263). -/
structure HelpComingMsg where
  helper_id : JValue
  eta_minutes : ℝ
  distance_km : ℝ
  timestamp : String

/-- One outbound message of the hub. -/
inductive OutMsg where
  | enriched (packet : JValue)
  | hospital (m : HospitalMsg)
  | dashboardEmergency (m : DashboardEmergencyMsg)
  | dashboardAck (m : DashboardAckMsg)
  | helpComing (m : HelpComingMsg)

/-- Environment oracles for one handler invocation: the per-process string
hash, the two random.uniform draws per wheel, and the strftime timestamp
strings in the order the handler requests them. -/
structure Oracles where
  hashW : Wheel → ℤ
  jP : Wheel → ℝ
  jT : Wheel → ℝ
  now : String
  now2 : String
  nowA : String
  nowB : String

/-- Fixed oracle used for concrete evaluations. -/
def oracle0 : Oracles :=
  { hashW := fun _ => 0, jP := fun _ => 0, jT := fun _ => 0,
    now := "", now2 := "", nowA := "", nowB := "" }

/-- Classification of an inbound datagram by the outcome of the two library
calls data.decode() and json.loads(...) the handlers apply to it. -/
inductive RawDatagram where
  | badUtf8                 -- bytes that are not valid UTF-8
  | badJson (text : String) -- decodes to text that does not parse as JSON
  | parsed (v : JValue)     -- decodes and parses to the JSON value v

/-- Python exception classes that can propagate out of the handlers. -/
inductive PyError where
  | unicodeDecodeError -- data.decode() on invalid UTF-8; not a JSONDecodeError
  | attributeError     -- attribute access such as .get or .append missing
  | typeError          -- unsupported operand type, e.g. the in operator or math on None
deriving DecidableEq

/-- Result of one handler invocation that returned normally: the new shared
state, the UDP sends attempted in order, and the dashboard_queue puts. -/
structure StepResult where
  state : HubState
  sends : List (Dest × OutMsg)
  queued : List OutMsg

/-- One entry of udp_send (relay_server.py 106-115): the socket send is
wrapped in try/except, so the call returns normally whether or not the
network delivered it; the net oracle says which sends succeed. -/
structure SendOutcome where
  dest : Dest
  msg : OutMsg
  delivered : Bool

/-- udp_send as seen by the caller: attempts the send and swallows any
failure (relay_server.py 108-115). -/
def udp_send (net : Dest → OutMsg → Bool) (m : Dest × OutMsg) : SendOutcome :=
  ⟨m.1, m.2, net m.1 m.2⟩

/-- Execution of a handler's send list against the network: every attempt
runs regardless of earlier failures, because udp_send catches them. -/
def performSends (net : Dest → OutMsg → Bool) (atts : List (Dest × OutMsg)) :
    List SendOutcome :=
  atts.map (udp_send net)

/-! handle_esp32_packet (relay_server.py 119-203). -/

/-- Hop-trace step (relay_server.py 150-153): if "hop_trace" in packet and
"RELAY" is not in the trace, append "RELAY" in place.  The Python in
operator depends on the value's type: list membership compares elements
with ==, string membership is a substring test, dict membership tests keys,
and any other type raises TypeError; a list supports append while a string
or dict found not to contain "RELAY" raises AttributeError at .append. -/
def hopUpdateE (fields : List (String × JValue)) :
    Except PyError (List (String × JValue)) :=
  match getField fields "hop_trace" with
  | none => .ok fields
  | some (.arr l) =>
      if l.any (fun v => jStrEq v "RELAY") then .ok fields
      else .ok (setField fields "hop_trace" (.arr (l ++ [.str "RELAY"])))
  | some (.str t) =>
      if "RELAY".data <:+: t.data then .ok fields else .error .attributeError
  | some (.obj fs) =>
      if hasKey fs "RELAY" then .ok fields else .error .attributeError
  | some _ => .error .typeError

/-- TPMS snapshot taken by the handler (relay_server.py 146): the generator
tick has just been incremented from the stored state. -/
def esp32Tpms (s : HubState) (o : Oracles) : Wheel → WheelData :=
  fun w => genWheel (s.tick + 1) o.hashW o.jP o.jT w

/-- The packet dict after the two assignments packet["tpms_data"] = tpms and
packet["relay_timestamp"] = now (relay_server.py 147-148). -/
def esp32Mutated (fields : List (String × JValue)) (s : HubState)
    (o : Oracles) : List (String × JValue) :=
  setField (setField fields "tpms_data" (tpmsToJson (esp32Tpms s o)))
    "relay_timestamp" (.str o.now)

/-- The latest_data["emergency"] record built from the mutated packet
(relay_server.py 158-167). -/
def mkEmergency (p2 : List (String × JValue)) (env_status : JValue) :
    Emergency :=
  { vehicle_id := getJ p2 "vehicle_id"
    issue := getJ p2 "issue"
    raw_description := getJ p2 "raw_description"
    latitude := getJ p2 "latitude"
    longitude := getJ p2 "longitude"
    timestamp := getJ p2 "timestamp"
    hop_trace := getJ p2 "hop_trace"
    environment_status := env_status }

/-- The hospital message built from the mutated packet
(relay_server.py 174-185). -/
def mkHospitalMsg (p2 : List (String × JValue)) (env_status : JValue) :
    HospitalMsg :=
  { vehicle_id := getJ p2 "vehicle_id"
    issue := getJ p2 "issue"
    raw_description := getJ p2 "raw_description"
    latitude := getJ p2 "latitude"
    longitude := getJ p2 "longitude"
    timestamp := getJ p2 "timestamp"
    environment_status := env_status
    maps_link_lat := getJ p2 "latitude"
    maps_link_lon := getJ p2 "longitude"
    relay_timestamp := getJ p2 "relay_timestamp" }

/-- The dashboard message built from the mutated packet
(relay_server.py 190-197). -/
def mkDashboardMsg (p2 : List (String × JValue)) (sensor env_status : JValue)
    (tpms : Wheel → WheelData) (o : Oracles) : DashboardEmergencyMsg :=
  { data := .obj p2
    sensor_data := sensor
    tpms_data := tpms
    environment_status := env_status
    timestamp := o.now2 }

/-- Step result handle_esp32_packet assembles once the hop-trace step has
produced the final packet p2 (relay_server.py 155-203): the tick counter
has advanced, latest_data holds the sensor reading, the telemetry snapshot
and the enriched emergency, and three sends go to Car2, hospital and
dashboard in that order, with the dashboard message also queued. -/
def esp32Result (fields sf p2 : List (String × JValue)) (s : HubState)
    (o : Oracles) : StepResult :=
  let env_status := getD fields "environment_status" (.str "Unknown")
  let tpms := esp32Tpms s o
  let dash := mkDashboardMsg p2 (.obj sf) env_status tpms o
  ⟨{ tick := s.tick + 1
     latest := { sensor_data := some (.obj sf)
                 tpms_data := some tpms
                 emergency := some (mkEmergency p2 env_status)
                 car2_ack := s.latest.car2_ack
                 car2_eta := s.latest.car2_eta } },
   [(.car2, .enriched (.obj p2)),
    (.hospital, .hospital (mkHospitalMsg p2 env_status)),
    (.dashboard, .dashboardEmergency dash)],
   [.dashboardEmergency dash]⟩

/-- handle_esp32_packet (relay_server.py 119-203).  A JSON parse failure is
caught and the datagram dropped (125-129); invalid UTF-8 raises out of the
handler because only json.JSONDecodeError is caught.  packet.get on a
non-dict JSON value raises AttributeError at line 131, as does
sensor_data.get at line 139 when rsu_environment is not a dict.  An error
result models the exception propagating out of the handler (mutations the
code makes before raising, such as the tick increment, are not observable
through an error result; no claim inspects them). -/
def handle_esp32_packet (d : RawDatagram) (s : HubState) (o : Oracles) :
    Except PyError StepResult :=
  match d with
  | .badUtf8 => .error .unicodeDecodeError
  | .badJson _ => .ok ⟨s, [], []⟩
  | .parsed (.obj fields) =>
      match getD fields "rsu_environment" (.obj []) with
      | .obj sensorFields =>
          match hopUpdateE (esp32Mutated fields s o) with
          | .error e => .error e
          | .ok p2 => .ok (esp32Result fields sensorFields p2 s o)
      | _ => .error .attributeError
  | .parsed _ => .error .attributeError

/-! handle_car2_ack (relay_server.py 207-267). -/

/-- handle_car2_ack (relay_server.py 207-267).  Parse failures are caught
and dropped (213-217); a datagram of any other JSON shape than a dict
raises AttributeError at ack.get (219).  A dict whose type field is not the
string ACK is silently ignored (219-220).  With a recorded emergency the
handler computes ETA and distance from the acknowledgment's coordinates to
the stored coordinates (228-231), raising TypeError when either side is not
numeric; with no recorded emergency it skips the computation and uses 0 for
both (232-234). -/
def handle_car2_ack (d : RawDatagram) (s : HubState) (o : Oracles) :
    Except PyError StepResult :=
  match d with
  | .badUtf8 => .error .unicodeDecodeError
  | .badJson _ => .ok ⟨s, [], []⟩
  | .parsed (.obj fields) =>
      if jStrEq (getJ fields "type") "ACK" then
        let car2_lat := getD fields "car2_latitude" (.num 0)
        let car2_lon := getD fields "car2_longitude" (.num 0)
        let computed : Except PyError (ℝ × ℝ) :=
          match s.latest.emergency with
          | some e =>
              match toNumber car2_lat, toNumber car2_lon,
                    toNumber e.latitude, toNumber e.longitude with
              | some x1, some y1, some x2, some y2 =>
                  .ok (calculate_eta x1 y1 x2 y2 40,
                       haversine_distance x1 y1 x2 y2)
              | _, _, _, _ => .error .typeError
          | none => .ok (0, 0)
        match computed with
        | .error e => .error e
        | .ok (eta_min, distance) =>
            let dashboard_ack : DashboardAckMsg :=
              { car2_id := getD fields "car2_id" (.str "CAR_02")
                car2_latitude := car2_lat
                car2_longitude := car2_lon
                eta_minutes := eta_min
                distance_km := round2 distance
                ack_timestamp := o.nowA }
            let car1_status : HelpComingMsg :=
              { helper_id := getD fields "car2_id" (.str "CAR_02")
                eta_minutes := eta_min
                distance_km := round2 distance
                timestamp := o.nowB }
            .ok ⟨{ tick := s.tick
                   latest := { sensor_data := s.latest.sensor_data
                               tpms_data := s.latest.tpms_data
                               emergency := s.latest.emergency
                               car2_ack := some (.obj fields)
                               car2_eta := some eta_min } },
                 [(.dashboard, .dashboardAck dashboard_ack),
                  (.car1, .helpComing car1_status)],
                 [.dashboardAck dashboard_ack]⟩
      else .ok ⟨s, [], []⟩
  | .parsed _ => .error .attributeError

/-- One iteration of the main report-port listener loop
(relay_server.py 322-332).  The try block covers data.decode(),
json.loads and pkt.get distinguishing ACK datagrams, but the except clause
catches only json.JSONDecodeError: a UnicodeDecodeError from invalid UTF-8
bytes or an AttributeError from pkt.get on a non-dict JSON value propagates
out of main, terminating the process. -/
def mainStep (d : RawDatagram) (s : HubState) (o : Oracles) :
    Except PyError StepResult :=
  match d with
  | .badUtf8 => .error .unicodeDecodeError
  | .badJson _ => .ok ⟨s, [], []⟩
  | .parsed (.obj fields) =>
      if jStrEq (getJ fields "type") "ACK" then handle_car2_ack d s o
      else handle_esp32_packet d s o
  | .parsed _ => .error .attributeError

/-! Concrete inputs used in counterexample evaluations. -/

/-- Acknowledgment datagram placing the responder at latitude 0,
longitude 180 (the antipode of the origin along the equator). -/
def ackNoEmer : JValue :=
  .obj [("type", .str "ACK"), ("car2_latitude", .num 0),
        ("car2_longitude", .num 180)]

/-- State the hub reaches after handling ackNoEmer from the initial state:
only car2_ack and car2_eta change, the latter to 0. -/
def ackNoEmerState : HubState :=
  { tick := 0
    latest := { sensor_data := none, tpms_data := none, emergency := none,
                car2_ack := some ackNoEmer, car2_eta := some 0 } }

/-- The CAR2_ACK dashboard message the hub emits for ackNoEmer: both the
ETA and the distance are 0. -/
def ackNoEmerAckMsg : DashboardAckMsg :=
  { car2_id := .str "CAR_02", car2_latitude := .num 0,
    car2_longitude := .num 180, eta_minutes := 0, distance_km := 0,
    ack_timestamp := "" }

/-- The HELP_COMING message the hub emits for ackNoEmer: both the ETA and
the distance are 0. -/
def ackNoEmerHelpMsg : HelpComingMsg :=
  { helper_id := .str "CAR_02", eta_minutes := 0, distance_km := 0,
    timestamp := "" }

/-! Association-list lemmas for the dict model. -/

theorem getField_map_upd (k k' : String) (v : JValue)
    (f : List (String × JValue)) (h : k ≠ k') :
    getField (f.map (fun kv => if kv.1 = k' then (k', v) else kv)) k =
      getField f k := by
  induction f with
  | nil => rfl
  | cons a t ih =>
    by_cases ha : a.1 = k'
    · have h1 : k' ≠ k := fun hk => h hk.symm
      simp [getField, ha, h1, ih]
    · simp only [List.map_cons, if_neg ha]
      by_cases hka : a.1 = k
      · simp [getField, hka]
      · simp [getField, hka, ih]

theorem getField_append_single_ne (k k' : String) (v : JValue)
    (f : List (String × JValue)) (h : k ≠ k') :
    getField (f ++ [(k', v)]) k = getField f k := by
  induction f with
  | nil =>
    have h1 : k' ≠ k := fun hk => h hk.symm
    simp [getField, h1]
  | cons a t ih =>
    by_cases hka : a.1 = k
    · simp [getField, hka]
    · simp [getField, hka, ih]

theorem getField_setField_ne (f : List (String × JValue)) (k k' : String)
    (v : JValue) (h : k ≠ k') :
    getField (setField f k' v) k = getField f k := by
  unfold setField
  split
  · exact getField_map_upd k k' v f h
  · exact getField_append_single_ne k k' v f h

theorem getField_eq_none_of_hasKey_false (k : String)
    (f : List (String × JValue)) (h : hasKey f k = false) :
    getField f k = none := by
  induction f with
  | nil => rfl
  | cons a t ih =>
    by_cases hka : a.1 = k
    · simp [hasKey, hka] at h
    · simp only [hasKey, if_neg hka] at h
      simp [getField, hka, ih h]

theorem getField_map_upd_self (k : String) (v : JValue)
    (f : List (String × JValue)) :
    hasKey f k = true →
      getField (f.map (fun kv => if kv.1 = k then (k, v) else kv)) k = some v := by
  induction f with
  | nil => intro h; simp [hasKey] at h
  | cons a t ih =>
    intro h
    by_cases ha : a.1 = k
    · simp [getField, ha]
    · simp only [hasKey, if_neg ha] at h
      simp [getField, ha, ih h]

theorem getField_append_single_self (k : String) (v : JValue)
    (f : List (String × JValue)) :
    getField f k = none → getField (f ++ [(k, v)]) k = some v := by
  induction f with
  | nil => intro _; simp [getField]
  | cons a t ih =>
    intro h
    by_cases hka : a.1 = k
    · simp [getField, hka] at h
    · simp only [getField, if_neg hka] at h
      simp [getField, hka, ih h]

theorem getField_setField_self (f : List (String × JValue)) (k : String)
    (v : JValue) :
    getField (setField f k v) k = some v := by
  unfold setField
  split
  · next hany => exact getField_map_upd_self k v f hany
  · next hany =>
    exact getField_append_single_self k v f
      (getField_eq_none_of_hasKey_false k f (by simpa using hany))

/-! Rounding lemmas. -/

theorem round_ge_one_of_half_le {x : ℝ} (h : (1 : ℝ) / 2 ≤ x) :
    1 ≤ round x := by
  rw [round_eq]
  apply Int.le_floor.mpr
  push_cast
  linarith

theorem round1_ne_zero {x : ℝ} (h : 1 ≤ x) : round1 x ≠ 0 := by
  unfold round1
  have h1 : (1 : ℝ) / 2 ≤ x * 10 := by linarith
  have h2 : (1 : ℤ) ≤ round (x * 10) := round_ge_one_of_half_le h1
  have h3 : (1 : ℝ) ≤ ((round (x * 10) : ℤ) : ℝ) := by exact_mod_cast h2
  intro heq
  rcases div_eq_zero_iff.mp heq with h4 | h4
  · linarith
  · norm_num at h4

theorem round2_ne_zero {x : ℝ} (h : 1 ≤ x) : round2 x ≠ 0 := by
  unfold round2
  have h1 : (1 : ℝ) / 2 ≤ x * 100 := by linarith
  have h2 : (1 : ℤ) ≤ round (x * 100) := round_ge_one_of_half_le h1
  have h3 : (1 : ℝ) ≤ ((round (x * 100) : ℤ) : ℝ) := by exact_mod_cast h2
  intro heq
  rcases div_eq_zero_iff.mp heq with h4 | h4
  · linarith
  · norm_num at h4

/-- Evaluation of the haversine at the counterexample coordinates: the
distance from (0, 180) to (0, 0) is half the Earth's circumference. -/
theorem hav_antipodal : haversine_distance 0 180 0 0 = 6371 * Real.pi := by
  unfold haversine_distance radians
  have hdlat : ((0 : ℝ) - 0) * (Real.pi / 180) = 0 := by ring
  have hdlon : ((0 : ℝ) - 180) * (Real.pi / 180) = -Real.pi := by ring
  have hlat : (0 : ℝ) * (Real.pi / 180) = 0 := by ring
  rw [hdlat, hdlon, hlat]
  simp [neg_div, Real.sin_pi_div_two, Real.arcsin_one]
  ring

/-! Claim theorems. -/

/-- C9: for all coordinate pairs A and B, distanceKm(A, B) equals
distanceKm(B, A), and distanceKm(A, A) equals 0.  Over the real-number
model the symmetry is exact. -/
theorem haversine_symm_and_self_zero (lat1 lon1 lat2 lon2 : ℝ) :
    haversine_distance lat1 lon1 lat2 lon2 =
      haversine_distance lat2 lon2 lat1 lon1 ∧
    haversine_distance lat1 lon1 lat1 lon1 = 0 := by
  constructor
  · unfold haversine_distance
    dsimp only
    have hs : ∀ x y : ℝ,
        Real.sin (radians (x - y) / 2) ^ 2 =
          Real.sin (radians (y - x) / 2) ^ 2 := by
      intro x y
      have hr : radians (x - y) = -(radians (y - x)) := by
        unfold radians; ring
      rw [hr, neg_div, Real.sin_neg, neg_sq]
    rw [hs lat2 lat1, hs lon2 lon1,
      mul_comm (Real.cos (radians lat1)) (Real.cos (radians lat2))]
  · unfold haversine_distance
    simp [radians]

/-- C5: every wheel entry the telemetry generator returns has pressure in
[25, 42] and temperature in [20, 90], and the status string is LOW iff the
clamped pressure is below 28, HIGH iff it is above 38, and OK otherwise.
The bounds hold for every tick, hash and jitter draw. -/
theorem tpms_bounds_and_status (tick : ℕ) (hashW : Wheel → ℤ)
    (jP jT : Wheel → ℝ) (w : Wheel) :
    25 ≤ (genWheel tick hashW jP jT w).pressure_psi ∧
    (genWheel tick hashW jP jT w).pressure_psi ≤ 42 ∧
    20 ≤ (genWheel tick hashW jP jT w).temperature_c ∧
    (genWheel tick hashW jP jT w).temperature_c ≤ 90 ∧
    ((genWheel tick hashW jP jT w).status = "LOW" ↔
      (genWheel tick hashW jP jT w).pressure_psi < 28) ∧
    ((genWheel tick hashW jP jT w).status = "HIGH" ↔
      38 < (genWheel tick hashW jP jT w).pressure_psi) ∧
    ((genWheel tick hashW jP jT w).status = "OK" ↔
      (28 ≤ (genWheel tick hashW jP jT w).pressure_psi ∧
       (genWheel tick hashW jP jT w).pressure_psi ≤ 38)) := by
  dsimp only [genWheel]
  generalize round1 (basePressure w +
    Real.sin ((tick : ℝ) * 0.05 + ((hashW w % 10 : ℤ) : ℝ)) * 1.5 + jP w) = q
  generalize round1 (baseTemp w +
    Real.sin ((tick : ℝ) * 0.03 + ((hashW w % 7 : ℤ) : ℝ)) * 5 + jT w) = r
  set P := max (25 : ℝ) (min 42 q) with hP
  set T := max (20 : ℝ) (min 90 r) with hT
  have hq1 : (25 : ℝ) ≤ P := le_max_left _ _
  have hq2 : P ≤ (42 : ℝ) := max_le (by norm_num) (min_le_left _ _)
  have hr1 : (20 : ℝ) ≤ T := le_max_left _ _
  have hr2 : T ≤ (90 : ℝ) := max_le (by norm_num) (min_le_left _ _)
  refine ⟨hq1, hq2, hr1, hr2, ?_, ?_, ?_⟩
  · split_ifs with h1 h2
    · exact iff_of_true rfl h1
    · exact iff_of_false (by decide) h1
    · exact iff_of_false (by decide) h1
  · split_ifs with h1 h2
    · exact iff_of_false (by decide) (by intro hx; linarith)
    · exact iff_of_true rfl h2
    · exact iff_of_false (by decide) h2
  · split_ifs with h1 h2
    · exact iff_of_false (by decide) (by rintro ⟨ha, _⟩; linarith)
    · exact iff_of_false (by decide) (by rintro ⟨_, hb⟩; linarith)
    · exact iff_of_true rfl ⟨not_lt.mp h1, not_lt.mp h2⟩

/-- C6: for speed above 0 the ETA is the distance over speed times 60,
rounded to one decimal place, and for speed at most 0 it is the
sentinel 999. -/
theorem eta_formula_and_sentinel (lat1 lon1 lat2 lon2 s : ℝ) :
    (0 < s → calculate_eta lat1 lon1 lat2 lon2 s =
      round1 (haversine_distance lat1 lon1 lat2 lon2 / s * 60)) ∧
    (s ≤ 0 → calculate_eta lat1 lon1 lat2 lon2 s = 999) := by
  constructor
  · intro h
    simp [calculate_eta, not_le.mpr h]
  · intro h
    simp [calculate_eta, h]

/-- Witness for C6 at speed 40 and speed -5. -/
theorem eta_formula_and_sentinel_witness :
    ((0 : ℝ) < 40 ∧ calculate_eta 0 0 0 0 40 =
      round1 (haversine_distance 0 0 0 0 / 40 * 60)) ∧
    ((-5 : ℝ) ≤ 0 ∧ calculate_eta 0 0 0 0 (-5) = 999) :=
  ⟨⟨by norm_num, (eta_formula_and_sentinel 0 0 0 0 40).1 (by norm_num)⟩,
   ⟨by norm_num, (eta_formula_and_sentinel 0 0 0 0 (-5)).2 (by norm_num)⟩⟩

/-- C2 (code bug): a datagram whose text is the valid JSON number 5 makes
the main listener loop raise AttributeError at pkt.get — only
json.JSONDecodeError is caught — so the process crashes instead of
degrading by discarding the message. -/
theorem non_object_json_crashes_main_loop :
    mainStep (.parsed (.num 5)) initState oracle0 =
      .error .attributeError := rfl

/-- C3 (code bug): a datagram whose bytes are not valid UTF-8 does not
parse as JSON, yet the main loop raises UnicodeDecodeError at
data.decode() — only json.JSONDecodeError is caught — and the process
terminates; text that decodes but fails JSON parsing is, by contrast,
discarded with no output and no state change. -/
theorem invalid_utf8_crashes_main_loop :
    mainStep .badUtf8 initState oracle0 = .error .unicodeDecodeError ∧
    mainStep (.badJson "garbage bytes") initState oracle0 =
      .ok ⟨initState, [], []⟩ :=
  ⟨rfl, rfl⟩

/-- C10 counterexample: a datagram on the acknowledgment port that parses
as the JSON array [] has no type field, yet it is not silently discarded:
ack.get raises AttributeError, which propagates and kills the listener
thread. -/
theorem ack_port_non_object_raises :
    handle_car2_ack (.parsed (.arr [])) initState oracle0 =
      .error .attributeError ∧
    handle_car2_ack (.parsed (.arr [])) initState oracle0 ≠
      .ok ⟨initState, [], []⟩ :=
  ⟨rfl, fun h => Except.noConfusion h⟩

/-- C10 amended: a datagram that parses as a JSON object whose type field
is absent or differs from the string ACK is silently discarded: the state
is returned unchanged and no message is sent or queued. -/
theorem non_ack_datagram_discarded (fields : List (String × JValue))
    (s : HubState) (o : Oracles)
    (h : jStrEq (getJ fields "type") "ACK" = false) :
    handle_car2_ack (.parsed (.obj fields)) s o = .ok ⟨s, [], []⟩ := by
  simp [handle_car2_ack, h]

/-- Witness for the amended C10 on a REPORT-typed object and the initial
state. -/
theorem non_ack_datagram_discarded_witness :
    jStrEq (getJ [("type", JValue.str "REPORT")] "type") "ACK" = false ∧
    handle_car2_ack (.parsed (.obj [("type", JValue.str "REPORT")]))
      initState oracle0 = .ok ⟨initState, [], []⟩ :=
  ⟨rfl, non_ack_datagram_discarded [("type", JValue.str "REPORT")]
    initState oracle0 rfl⟩

/-- C4: for a report whose hop trace does not yet contain RELAY, the hub's
hop-trace step appends RELAY exactly once, and running the step again on
the result changes nothing, so after reprocessing the identifier still
appears exactly once. -/
theorem relay_hop_append_idempotent (p : List (String × JValue))
    (l : List JValue)
    (hh : getField p "hop_trace" = some (.arr l))
    (h0 : l.countP (fun v => jStrEq v "RELAY") = 0) :
    ∃ p', hopUpdateE p = .ok p' ∧
      getField p' "hop_trace" = some (.arr (l ++ [.str "RELAY"])) ∧
      (l ++ [JValue.str "RELAY"]).countP (fun v => jStrEq v "RELAY") = 1 ∧
      hopUpdateE p' = .ok p' := by
  have hany : l.any (fun v => jStrEq v "RELAY") = false := by
    rw [List.any_eq_false]
    intro x hx
    have := List.countP_eq_zero.mp h0 x hx
    simpa using this
  refine ⟨setField p "hop_trace" (.arr (l ++ [.str "RELAY"])), ?_, ?_, ?_, ?_⟩
  · simp [hopUpdateE, hh, hany]
  · exact getField_setField_self p "hop_trace" _
  · rw [List.countP_append, h0]
    simp [jStrEq]
  · have hh2 : getField (setField p "hop_trace" (.arr (l ++ [.str "RELAY"])))
        "hop_trace" = some (.arr (l ++ [.str "RELAY"])) :=
      getField_setField_self p "hop_trace" _
    have hany2 : (l ++ [JValue.str "RELAY"]).any (fun v => jStrEq v "RELAY") = true := by
      simp [jStrEq]
    simp [hopUpdateE, hh2, hany2]

/-- Witness for C4 on a report carrying the empty hop trace. -/
theorem relay_hop_append_idempotent_witness :
    getField [("hop_trace", JValue.arr [])] "hop_trace" =
      some (.arr []) ∧
    ([] : List JValue).countP (fun v => jStrEq v "RELAY") = 0 ∧
    ∃ p', hopUpdateE [("hop_trace", JValue.arr [])] = .ok p' ∧
      getField p' "hop_trace" = some (.arr [JValue.str "RELAY"]) ∧
      ([JValue.str "RELAY"]).countP (fun v => jStrEq v "RELAY") = 1 ∧
      hopUpdateE p' = .ok p' :=
  ⟨rfl, rfl,
    relay_hop_append_idempotent [("hop_trace", JValue.arr [])] [] rfl rfl⟩

/-- C1 counterexample: an acknowledgment from (0, 180) arriving with no
recorded emergency.  The CAR2_ACK and HELP_COMING messages carry
distance 0 and ETA 0 — the handler never computes against (0, 0); had it
done so, the rounded distance and ETA would both be nonzero. -/
theorem ack_without_emergency_not_against_origin :
    handle_car2_ack (.parsed ackNoEmer) initState oracle0 =
      .ok ⟨ackNoEmerState,
           [(.dashboard, .dashboardAck ackNoEmerAckMsg),
            (.car1, .helpComing ackNoEmerHelpMsg)],
           [.dashboardAck ackNoEmerAckMsg]⟩ ∧
    ackNoEmerAckMsg.distance_km = 0 ∧ ackNoEmerAckMsg.eta_minutes = 0 ∧
    ackNoEmerHelpMsg.distance_km = 0 ∧ ackNoEmerHelpMsg.eta_minutes = 0 ∧
    round2 (haversine_distance 0 180 0 0) ≠ 0 ∧
    calculate_eta 0 180 0 0 40 ≠ 0 := by
  refine ⟨?_, rfl, rfl, rfl, rfl, ?_, ?_⟩
  · simp [handle_car2_ack, ackNoEmer, ackNoEmerState, ackNoEmerAckMsg,
      ackNoEmerHelpMsg, initState, oracle0, getJ, getD, getField, jStrEq,
      round2]
  · rw [hav_antipodal]
    apply round2_ne_zero
    nlinarith [Real.pi_gt_three]
  · have h40 : ¬((40 : ℝ) ≤ 0) := by norm_num
    unfold calculate_eta
    rw [if_neg h40, hav_antipodal]
    apply round1_ne_zero
    nlinarith [Real.pi_gt_three]

/-- C1 amended: when an acknowledgment with type ACK arrives and
LatestState holds no active emergency, the handler performs no distance
computation at all: it uses 0 for both the ETA and the distance, and those
zeros are what the outbound CAR2_ACK and HELP_COMING messages carry. -/
theorem ack_without_emergency_zeroes (fields : List (String × JValue))
    (s : HubState) (o : Oracles)
    (htype : jStrEq (getJ fields "type") "ACK" = true)
    (hemer : s.latest.emergency = none) :
    ∃ st m1 m2, handle_car2_ack (.parsed (.obj fields)) s o =
      .ok ⟨st, [(.dashboard, .dashboardAck m1), (.car1, .helpComing m2)],
           [.dashboardAck m1]⟩ ∧
      m1.eta_minutes = 0 ∧ m1.distance_km = 0 ∧
      m2.eta_minutes = 0 ∧ m2.distance_km = 0 ∧
      st.latest.car2_eta = some 0 := by
  refine ⟨{ tick := s.tick,
            latest := { sensor_data := s.latest.sensor_data,
                        tpms_data := s.latest.tpms_data,
                        emergency := s.latest.emergency,
                        car2_ack := some (.obj fields),
                        car2_eta := some 0 } },
          { car2_id := getD fields "car2_id" (.str "CAR_02"),
            car2_latitude := getD fields "car2_latitude" (.num 0),
            car2_longitude := getD fields "car2_longitude" (.num 0),
            eta_minutes := 0, distance_km := round2 0,
            ack_timestamp := o.nowA },
          { helper_id := getD fields "car2_id" (.str "CAR_02"),
            eta_minutes := 0, distance_km := round2 0,
            timestamp := o.nowB }, ?_, rfl, ?_, rfl, ?_, rfl⟩
  · simp [handle_car2_ack, htype, hemer]
  · simp [round2]
  · simp [round2]

/-- Characterization of handle_esp32_packet on a report-shaped packet: a
JSON object whose rsu_environment is an object (or absent, when the
default empty dict is used) and whose hop_trace is a list (or absent).
The handler succeeds, stores the enriched report, and attempts exactly the
three sends to Car2, hospital and dashboard in order. -/
theorem esp32_ok (fields sf : List (String × JValue)) (s : HubState)
    (o : Oracles)
    (hs : getD fields "rsu_environment" (.obj []) = .obj sf)
    (hhop : getField fields "hop_trace" = none ∨
      ∃ l, getField fields "hop_trace" = some (.arr l)) :
    ∃ p2 r,
      hopUpdateE (esp32Mutated fields s o) = .ok p2 ∧
      (∀ k, k ≠ "hop_trace" →
        getField p2 k = getField (esp32Mutated fields s o) k) ∧
      handle_esp32_packet (.parsed (.obj fields)) s o = .ok r ∧
      r.sends = [(.car2, .enriched (.obj p2)),
                 (.hospital, .hospital (mkHospitalMsg p2
                   (getD fields "environment_status" (.str "Unknown")))),
                 (.dashboard, .dashboardEmergency (mkDashboardMsg p2 (.obj sf)
                   (getD fields "environment_status" (.str "Unknown"))
                   (esp32Tpms s o) o))] ∧
      r.state.latest.emergency = some (mkEmergency p2
        (getD fields "environment_status" (.str "Unknown"))) := by
  have hmut : getField (esp32Mutated fields s o) "hop_trace" =
      getField fields "hop_trace" := by
    unfold esp32Mutated
    rw [getField_setField_ne _ _ _ _ (by decide),
      getField_setField_ne _ _ _ _ (by decide)]
  rcases hhop with hnone | ⟨l, harr⟩
  · have hok : hopUpdateE (esp32Mutated fields s o) =
        .ok (esp32Mutated fields s o) := by
      unfold hopUpdateE
      rw [hmut, hnone]
    refine ⟨esp32Mutated fields s o,
      esp32Result fields sf (esp32Mutated fields s o) s o, hok,
      fun k hk => rfl, ?_, rfl, rfl⟩
    simp [handle_esp32_packet, hs, hok]
  · by_cases hany : l.any (fun v => jStrEq v "RELAY") = true
    · have hok : hopUpdateE (esp32Mutated fields s o) =
          .ok (esp32Mutated fields s o) := by
        unfold hopUpdateE
        rw [hmut, harr]
        simp [hany]
      refine ⟨esp32Mutated fields s o,
        esp32Result fields sf (esp32Mutated fields s o) s o, hok,
        fun k hk => rfl, ?_, rfl, rfl⟩
      simp [handle_esp32_packet, hs, hok]
    · have hany2 : l.any (fun v => jStrEq v "RELAY") = false := by
        simpa using hany
      have hok : hopUpdateE (esp32Mutated fields s o) =
          .ok (setField (esp32Mutated fields s o) "hop_trace"
            (.arr (l ++ [JValue.str "RELAY"]))) := by
        unfold hopUpdateE
        rw [hmut, harr]
        simp [hany2]
      refine ⟨setField (esp32Mutated fields s o) "hop_trace"
          (.arr (l ++ [JValue.str "RELAY"])),
        esp32Result fields sf (setField (esp32Mutated fields s o) "hop_trace"
          (.arr (l ++ [JValue.str "RELAY"]))) s o, hok, ?_, ?_, rfl, rfl⟩
      · intro k hk
        exact getField_setField_ne _ _ _ _ hk
      · simp [handle_esp32_packet, hs, hok]

/-- C8: every report-shaped packet the handler accepts produces exactly
three outbound sends, to the responder (Car2), hospital and dashboard
sinks in that order, and because udp_send swallows failures every one of
the three is attempted whatever subset of sends the network makes fail. -/
theorem report_fans_out_three_sends (fields sf : List (String × JValue))
    (s : HubState) (o : Oracles)
    (hs : getD fields "rsu_environment" (.obj []) = .obj sf)
    (hhop : getField fields "hop_trace" = none ∨
      ∃ l, getField fields "hop_trace" = some (.arr l)) :
    ∃ st p2 hm dm q,
      handle_esp32_packet (.parsed (.obj fields)) s o =
        .ok ⟨st, [(.car2, .enriched p2), (.hospital, .hospital hm),
                  (.dashboard, .dashboardEmergency dm)], q⟩ ∧
      ∀ net, (performSends net
          [(.car2, .enriched p2), (.hospital, .hospital hm),
           (.dashboard, .dashboardEmergency dm)]).map
            (fun r => (r.dest, r.msg)) =
        [(.car2, .enriched p2), (.hospital, .hospital hm),
         (.dashboard, .dashboardEmergency dm)] := by
  obtain ⟨p2, r, _, _, heq, hsends, _⟩ := esp32_ok fields sf s o hs hhop
  obtain ⟨st, sends, qd⟩ := r
  dsimp only at hsends
  subst hsends
  refine ⟨st, _, _, _, qd, heq, ?_⟩
  intro net
  simp [performSends, udp_send]

/-- Witness for C8 on the minimal report (the empty JSON object) from the
initial state. -/
theorem report_fans_out_three_sends_witness :
    getD [] "rsu_environment" (.obj []) = .obj [] ∧
    (getField ([] : List (String × JValue)) "hop_trace" = none ∨
      ∃ l, getField ([] : List (String × JValue)) "hop_trace" =
        some (.arr l)) ∧
    ∃ st p2 hm dm q,
      handle_esp32_packet (.parsed (.obj [])) initState oracle0 =
        .ok ⟨st, [(.car2, .enriched p2), (.hospital, .hospital hm),
                  (.dashboard, .dashboardEmergency dm)], q⟩ ∧
      ∀ net, (performSends net
          [(.car2, .enriched p2), (.hospital, .hospital hm),
           (.dashboard, .dashboardEmergency dm)]).map
            (fun r => (r.dest, r.msg)) =
        [(.car2, .enriched p2), (.hospital, .hospital hm),
         (.dashboard, .dashboardEmergency dm)] :=
  ⟨rfl, Or.inl rfl,
    report_fans_out_three_sends [] [] initState oracle0 rfl (Or.inl rfl)⟩

/-- C7: after two report-shaped packets are handled in sequence, the
stored emergency is built from the second packet alone (full overwrite:
its fields are functions of the second packet only), and a subsequent
acknowledgment — whatever vehicle its fields name, since only the type
and coordinate fields are read — computes its ETA and distance against
the second packet's coordinates, placing equal values in the CAR2_ACK and
HELP_COMING messages. -/
theorem second_report_overwrites_first
    (p1 p2f ackf sf1 sf2 : List (String × JValue))
    (s : HubState) (o1 o2 o3 : Oracles) (la lo ca cb : ℝ)
    (hs1 : getD p1 "rsu_environment" (.obj []) = .obj sf1)
    (hh1 : getField p1 "hop_trace" = none ∨
      ∃ l, getField p1 "hop_trace" = some (.arr l))
    (hs2 : getD p2f "rsu_environment" (.obj []) = .obj sf2)
    (hh2 : getField p2f "hop_trace" = none ∨
      ∃ l, getField p2f "hop_trace" = some (.arr l))
    (hla : getField p2f "latitude" = some (.num la))
    (hlo : getField p2f "longitude" = some (.num lo))
    (htype : jStrEq (getJ ackf "type") "ACK" = true)
    (hca : getD ackf "car2_latitude" (.num 0) = .num ca)
    (hcb : getD ackf "car2_longitude" (.num 0) = .num cb) :
    ∃ r1 r2, handle_esp32_packet (.parsed (.obj p1)) s o1 = .ok r1 ∧
      handle_esp32_packet (.parsed (.obj p2f)) r1.state o2 = .ok r2 ∧
      (∃ e2, r2.state.latest.emergency = some e2 ∧
        e2.vehicle_id = getJ p2f "vehicle_id" ∧
        e2.latitude = JValue.num la ∧ e2.longitude = JValue.num lo) ∧
      (∃ st3 m1 m2, handle_car2_ack (.parsed (.obj ackf)) r2.state o3 =
          .ok ⟨st3, [(.dashboard, .dashboardAck m1),
                     (.car1, .helpComing m2)], [.dashboardAck m1]⟩ ∧
        m1.eta_minutes = calculate_eta ca cb la lo 40 ∧
        m1.distance_km = round2 (haversine_distance ca cb la lo) ∧
        m2.eta_minutes = calculate_eta ca cb la lo 40 ∧
        m2.distance_km = round2 (haversine_distance ca cb la lo)) := by
  obtain ⟨q1, r1, hop1, hpres1, heq1, hsends1, hem1⟩ :=
    esp32_ok p1 sf1 s o1 hs1 hh1
  obtain ⟨q2, r2, hop2, hpres2, heq2, hsends2, hem2⟩ :=
    esp32_ok p2f sf2 r1.state o2 hs2 hh2
  have hlat2 : getField q2 "latitude" = some (JValue.num la) := by
    rw [hpres2 _ (by decide)]
    unfold esp32Mutated
    rw [getField_setField_ne _ _ _ _ (by decide),
      getField_setField_ne _ _ _ _ (by decide)]
    exact hla
  have hlon2 : getField q2 "longitude" = some (JValue.num lo) := by
    rw [hpres2 _ (by decide)]
    unfold esp32Mutated
    rw [getField_setField_ne _ _ _ _ (by decide),
      getField_setField_ne _ _ _ _ (by decide)]
    exact hlo
  have hveh2 : getField q2 "vehicle_id" = getField p2f "vehicle_id" := by
    rw [hpres2 _ (by decide)]
    unfold esp32Mutated
    rw [getField_setField_ne _ _ _ _ (by decide),
      getField_setField_ne _ _ _ _ (by decide)]
  have hEla : (mkEmergency q2
      (getD p2f "environment_status" (.str "Unknown"))).latitude =
      JValue.num la := by
    dsimp [mkEmergency, getJ]
    rw [hlat2]
    rfl
  have hElo : (mkEmergency q2
      (getD p2f "environment_status" (.str "Unknown"))).longitude =
      JValue.num lo := by
    dsimp [mkEmergency, getJ]
    rw [hlon2]
    rfl
  refine ⟨r1, r2, heq1, heq2, ?_, ?_⟩
  · refine ⟨_, hem2, ?_, hEla, hElo⟩
    dsimp [mkEmergency, getJ]
    rw [hveh2]
  · refine ⟨{ tick := r2.state.tick,
              latest := { sensor_data := r2.state.latest.sensor_data,
                          tpms_data := r2.state.latest.tpms_data,
                          emergency := r2.state.latest.emergency,
                          car2_ack := some (.obj ackf),
                          car2_eta := some (calculate_eta ca cb la lo 40) } },
      { car2_id := getD ackf "car2_id" (.str "CAR_02"),
        car2_latitude := getD ackf "car2_latitude" (.num 0),
        car2_longitude := getD ackf "car2_longitude" (.num 0),
        eta_minutes := calculate_eta ca cb la lo 40,
        distance_km := round2 (haversine_distance ca cb la lo),
        ack_timestamp := o3.nowA },
      { helper_id := getD ackf "car2_id" (.str "CAR_02"),
        eta_minutes := calculate_eta ca cb la lo 40,
        distance_km := round2 (haversine_distance ca cb la lo),
        timestamp := o3.nowB }, ?_, rfl, rfl, rfl, rfl⟩
    simp [handle_car2_ack, htype, hca, hcb, hem2, hEla, hElo, toNumber]

/-- Witness for C7 on two concrete single-vehicle reports and an
acknowledgment naming the first vehicle. -/
theorem second_report_overwrites_first_witness :
    (getD [("vehicle_id", JValue.str "CAR_01"), ("latitude", JValue.num 1),
        ("longitude", JValue.num 2)] "rsu_environment" (.obj []) =
      .obj []) ∧
    (getField [("vehicle_id", JValue.str "CAR_09"), ("latitude", JValue.num 3),
        ("longitude", JValue.num 4)] "latitude" = some (.num 3)) ∧
    (jStrEq (getJ [("type", JValue.str "ACK"), ("car2_latitude", JValue.num 5),
        ("car2_longitude", JValue.num 6),
        ("accident_vehicle", JValue.str "CAR_01")] "type") "ACK" = true) ∧
    ∃ r1 r2, handle_esp32_packet (.parsed (.obj [("vehicle_id", JValue.str "CAR_01"),
        ("latitude", JValue.num 1), ("longitude", JValue.num 2)]))
        initState oracle0 = .ok r1 ∧
      handle_esp32_packet (.parsed (.obj [("vehicle_id", JValue.str "CAR_09"),
        ("latitude", JValue.num 3), ("longitude", JValue.num 4)]))
        r1.state oracle0 = .ok r2 ∧
      (∃ e2, r2.state.latest.emergency = some e2 ∧
        e2.vehicle_id = getJ [("vehicle_id", JValue.str "CAR_09"),
          ("latitude", JValue.num 3), ("longitude", JValue.num 4)]
          "vehicle_id" ∧
        e2.latitude = JValue.num 3 ∧ e2.longitude = JValue.num 4) ∧
      (∃ st3 m1 m2, handle_car2_ack (.parsed (.obj [("type", JValue.str "ACK"),
          ("car2_latitude", JValue.num 5), ("car2_longitude", JValue.num 6),
          ("accident_vehicle", JValue.str "CAR_01")])) r2.state oracle0 =
          .ok ⟨st3, [(.dashboard, .dashboardAck m1),
                     (.car1, .helpComing m2)], [.dashboardAck m1]⟩ ∧
        m1.eta_minutes = calculate_eta 5 6 3 4 40 ∧
        m1.distance_km = round2 (haversine_distance 5 6 3 4) ∧
        m2.eta_minutes = calculate_eta 5 6 3 4 40 ∧
        m2.distance_km = round2 (haversine_distance 5 6 3 4)) :=
  ⟨rfl, rfl, rfl,
    second_report_overwrites_first
      [("vehicle_id", JValue.str "CAR_01"), ("latitude", JValue.num 1),
       ("longitude", JValue.num 2)]
      [("vehicle_id", JValue.str "CAR_09"), ("latitude", JValue.num 3),
       ("longitude", JValue.num 4)]
      [("type", JValue.str "ACK"), ("car2_latitude", JValue.num 5),
       ("car2_longitude", JValue.num 6),
       ("accident_vehicle", JValue.str "CAR_01")]
      [] [] initState oracle0 oracle0 oracle0 3 4 5 6
      rfl (Or.inl rfl) rfl (Or.inl rfl) rfl rfl rfl rfl rfl⟩

/-- Witness for the amended C1 on a minimal ACK object and the initial
state. -/
theorem ack_without_emergency_zeroes_witness :
    jStrEq (getJ [("type", JValue.str "ACK")] "type") "ACK" = true ∧
    initState.latest.emergency = none ∧
    ∃ st m1 m2,
      handle_car2_ack (.parsed (.obj [("type", JValue.str "ACK")]))
        initState oracle0 =
        .ok ⟨st, [(.dashboard, .dashboardAck m1), (.car1, .helpComing m2)],
             [.dashboardAck m1]⟩ ∧
      m1.eta_minutes = 0 ∧ m1.distance_km = 0 ∧
      m2.eta_minutes = 0 ∧ m2.distance_km = 0 ∧
      st.latest.car2_eta = some 0 :=
  ⟨rfl, rfl, ack_without_emergency_zeroes [("type", JValue.str "ACK")]
    initState oracle0 rfl rfl⟩

end Relay
